import Mathlib

/-!
Verification of the Kilobot controller (ci_kilobot_controller.cpp): a
shallow embedding of the simulator-side controller that synchronizes one
simulation tick per control step with an external behavior process through
a shared-memory State Record and POSIX stop/continue signals.

The embedding models the parent (simulator) side of the protocol. OS calls
appear as explicit outcome parameters (the environment decides whether
shm_open, mmap, fork, ... succeed) and as events in an action trace, so
that ordering and counting properties are statable. The behavior child
process is modelled as an arbitrary function on the State Record: it runs
exactly while the simulator is blocked in waitpid, which is the alternation
the protocol enforces.
-/

namespace Kilobot

/-- Modelled from the spec: the fixed-size radio message payload type
(message_t, declared in a kilolib header that is not part of this
translation unit). The synchronizer copies values of this type wholesale
with memcpy, so the internal layout is irrelevant here and a value is
carried as a single datum. -/
structure message_t where
  data : Nat
deriving DecidableEq, Repr

/-- Modelled from the spec: the fixed-size distance measurement record
(distance_measurement_t), copied alongside each received message. -/
structure distance_measurement_t where
  data : Nat
deriving DecidableEq, Repr

/-- Modelled from the spec: the State Record (kilobot_state_t, spec at
section 3): the fixed-layout struct shared between the simulator and the
behavior process. The two rx arrays have MAX_RX cells in the source; they
are modelled as total functions on Nat indices so that the absence of
stores past the array bound is expressible. Field names follow the field
accesses in ci_kilobot_controller.cpp. -/
structure kilobot_state_t where
  ambientlight : Int
  rx_state : Nat
  rx_message : Nat → message_t
  rx_distance : Nat → distance_measurement_t
  tx_state : Nat
  tx_message : message_t
  left_motor : Nat
  right_motor : Nat
  color : Nat
  voltage : Nat
  temperature : Nat

/-- The all-zero State Record, the result of memset(ptr, 0, sizeof(kilobot_state_t)). -/
def zeroState : kilobot_state_t where
  ambientlight := 0
  rx_state := 0
  rx_message := fun _ => ⟨0⟩
  rx_distance := fun _ => ⟨0⟩
  tx_state := 0
  tx_message := ⟨0⟩
  left_motor := 0
  right_motor := 0
  color := 0
  voltage := 0
  temperature := 0

/-- One received packet of the communication sensor
(CCI_KilobotCommunicationSensor::SPacket): a message and its distance
measurement, as read at lines 111-116 of the source. -/
structure SPacket where
  Message : message_t
  Distance : distance_measurement_t
deriving DecidableEq, Repr

/-- What the communication sensor reports this tick: GetPackets() and
MessageSent(). -/
structure CommSensorReading where
  packets : List SPacket
  messageSent : Bool
deriving DecidableEq, Repr

/-- The optional devices the controller acquired in Init (each GetActuator
and GetSensor call is wrapped in a try/catch, so any device may be absent)
together with the sensor readings of the current tick. A present light
sensor carries its GetReading value; a present communication sensor
carries its CommSensorReading. -/
structure Devices where
  light : Option Int
  commS : Option CommSensorReading
  motors : Bool
  led : Bool
  commA : Bool

/-- argos Min instantiated at UInt8, as called at line 109:
Min<UInt8>(m_pcCommS->GetPackets().size(), KILOBOT_MAX_RX). Both arguments
are first converted to UInt8, which reduces them modulo 256; the smaller
of the two converted values is returned. -/
def minUInt8 (a b : Nat) : Nat :=
  min (a % 256) (b % 256)

/-- Lines 104-105: if the light sensor is present, store its reading into
the ambientlight field. -/
def setLight (light : Option Int) (s : kilobot_state_t) : kilobot_state_t :=
  match light with
  | some v => { s with ambientlight := v }
  | none => s

/-- Lines 110-117: the copy loop. For every index i below the just-written
rx_state (= n), copy packet i into rx_message[i] and rx_distance[i]; all
other cells are untouched. In the source n never exceeds the packet count,
so the getD default is never selected on the written range. -/
def writeRxLoop (pkts : List SPacket) (n : Nat) (s : kilobot_state_t) : kilobot_state_t :=
  { s with
    rx_message := fun i => if i < n then (pkts.getD i ⟨⟨0⟩, ⟨0⟩⟩).Message else s.rx_message i
    rx_distance := fun i => if i < n then (pkts.getD i ⟨⟨0⟩, ⟨0⟩⟩).Distance else s.rx_distance i }

/-- Lines 108-118: if the packet list of this tick is non-empty, write
rx_state := Min<UInt8>(count, KILOBOT_MAX_RX) and run the copy loop bounded
by the stored rx_state; otherwise leave the rx fields untouched. -/
def setRx (maxRx : Nat) (c : CommSensorReading) (s : kilobot_state_t) : kilobot_state_t :=
  if c.packets.isEmpty then s
  else
    let n := minUInt8 c.packets.length maxRx
    writeRxLoop c.packets n { s with rx_state := n }

/-- Lines 119-122: if the radio reports the last message as sent, write
tx_state := 2. This is the only simulator-side store to tx_state. -/
def setTxSent (c : CommSensorReading) (s : kilobot_state_t) : kilobot_state_t :=
  if c.messageSent then { s with tx_state := 2 } else s

/-- Lines 103-125 of ControlStep: the simulator-side writes of the sensor
snapshot into the State Record, performed before the child is resumed.
The voltage and temperature fields are left unwritten (TODO in the
source). -/
def writeSensors (maxRx : Nat) (d : Devices) (s : kilobot_state_t) : kilobot_state_t :=
  let s1 := setLight d.light s
  match d.commS with
  | some c => setTxSent c (setRx maxRx c s1)
  | none => s1

/-- The actuator commands issued at lines 130-144 after the wait: the raw
motor fields handed to SetLinearVelocity (the double conversion factors,
marked TODO in the source, are applied by the actuator collaborator), the
raw color handed to the LED conversion, and SetMessage of tx_message
exactly when the communication actuator is present and tx_state = 1. -/
structure ActuatorCommands where
  motorCmd : Option (Nat × Nat)
  ledCmd : Option Nat
  txCmd : Option message_t
deriving DecidableEq, Repr

/-- Lines 130-144: read the actuator fields back out of the State Record
and issue commands to whichever actuators are present. The record itself
is not written here. -/
def readActuators (d : Devices) (s : kilobot_state_t) : ActuatorCommands where
  motorCmd := if d.motors then some (s.right_motor, s.left_motor) else none
  ledCmd := if d.led then some s.color else none
  txCmd := if d.commA = true ∧ s.tx_state = 1 then some s.tx_message else none

/-- Linux signal numbers used by the controller. -/
def SIGCONT : Nat := 18

/-- SIGTERM, sent by Destroy. -/
def SIGTERM : Nat := 15

/-- How the child left the waitpid of this tick: it stopped itself (the
cooperative per-tick checkpoint) or it exited. waitpid with WUNTRACED
returns in either case. -/
inductive ChildOutcome
  | stopped
  | exited
deriving DecidableEq, Repr

/-- Which group of State Record fields an event touches. -/
inductive FieldTag
  | ambientlight
  | rxBlock
  | txState
  | motors
  | color
  | txMessage
deriving DecidableEq, Repr

/-- Observable OS-level events of one ControlStep, in program order. -/
inductive Ev
  | writeField (f : FieldTag)
  | kill (pid : Int) (sig : Nat)
  | waitFor (pid : Int) (o : ChildOutcome)
  | readField (f : FieldTag)
deriving DecidableEq, Repr

/-- The State Record store events of lines 103-125, in program order:
ambientlight if the light sensor is present, the rx block if packets
arrived, tx_state if the last message was sent. -/
def preEvs (d : Devices) : List Ev :=
  (if d.light.isSome then [Ev.writeField FieldTag.ambientlight] else []) ++
  (match d.commS with
   | some c =>
     (if c.packets.isEmpty then [] else [Ev.writeField FieldTag.rxBlock]) ++
     (if c.messageSent then [Ev.writeField FieldTag.txState] else [])
   | none => [])

/-- The State Record read events of lines 130-144, in program order, for
the state the record holds after the wait. -/
def postEvs (d : Devices) (s : kilobot_state_t) : List Ev :=
  (if d.motors then [Ev.readField FieldTag.motors] else []) ++
  (if d.led then [Ev.readField FieldTag.color] else []) ++
  (if d.commA = true ∧ s.tx_state = 1 then [Ev.readField FieldTag.txMessage] else [])

/-- Result of one ControlStep. The anomaly component is the error the call
surfaces: the source ControlStep has no error path at all (waitpid is
called with a NULL status pointer and its return value is discarded), so
it is none on every path. -/
structure TickResult where
  state : kilobot_state_t
  cmds : ActuatorCommands
  anomaly : Option Nat
  trace : List Ev

/-- CCI_KilobotController::ControlStep (lines 102-145). Write the sensor
snapshot, kill(pid, SIGCONT), waitpid(pid, NULL, WUNTRACED) — during which
the behavior child runs one tick, modelled as an arbitrary function on the
shared State Record — then read the actuator fields back out. The
outcome parameter is how the child left the wait; the source discards it. -/
def ControlStep (maxRx : Nat) (pid : Int) (d : Devices)
    (behavior : kilobot_state_t → kilobot_state_t) (outcome : ChildOutcome)
    (s : kilobot_state_t) : TickResult :=
  let sMid := writeSensors maxRx d s
  let sEnd := behavior sMid
  { state := sEnd
    cmds := readActuators d sEnd
    anomaly := none
    trace := preEvs d ++ [Ev.kill pid SIGCONT, Ev.waitFor pid outcome] ++ postEvs d sEnd }

/-- N consecutive ControlStep calls, each tick with its own device
readings, child-tick function and child outcome; returns the final State
Record and the concatenated event trace in program order. -/
def ControlStepN (maxRx : Nat) (pid : Int)
    (ds : Nat → Devices) (behs : Nat → kilobot_state_t → kilobot_state_t)
    (outs : Nat → ChildOutcome) : Nat → kilobot_state_t → kilobot_state_t × List Ev
  | 0, s => (s, [])
  | n + 1, s =>
    let r := ControlStep maxRx pid (ds 0) (behs 0) (outs 0) s
    let rest := ControlStepN maxRx pid (fun k => ds (k + 1)) (fun k => behs (k + 1))
      (fun k => outs (k + 1)) n r.state
    (rest.1, r.trace ++ rest.2)

/-- True of the resume signal of this controller: kill(pid, SIGCONT). -/
def isResume (pid : Int) : Ev → Bool
  | Ev.kill p sig => p == pid && sig == SIGCONT
  | _ => false

/-- True of the blocking wait of this controller: waitpid(pid, ...). -/
def isWait (pid : Int) : Ev → Bool
  | Ev.waitFor p _ => p == pid
  | _ => false

/-- True of State Record store events. -/
def isWriteField : Ev → Bool
  | Ev.writeField _ => true
  | _ => false

/-- True of State Record read events. -/
def isReadField : Ev → Bool
  | Ev.readField _ => true
  | _ => false

/-- CCI_KilobotController::Reset (lines 150-152):
memset(m_ptRobotState, 0, sizeof(kilobot_state_t)), regardless of the prior
contents of the record. -/
def Reset (_s : kilobot_state_t) : kilobot_state_t :=
  zeroState

/-- An OS error: the errno the failed call left behind, which the source
reports through strerror in the exception message. -/
structure OSErr where
  errno : Nat
deriving DecidableEq, Repr

/-- The outcomes the operating system gives to the calls Init performs,
supplied as the environment of one Init run: open of the behavior file
(line 45), shm_open (line 54), ftruncate (line 61), mmap (line 63) and
fork (line 75, parent view: error or the child pid). -/
structure InitOS where
  openBehavior : Except OSErr Nat
  shm_open : Except OSErr Nat
  ftruncate : Except OSErr Unit
  mmap : Except OSErr Unit
  fork : Except OSErr Int

/-- The distinct Init failures the source throws (each carries the OS
error it propagates). There is no constructor for a sizing failure: the
source never tests the return value of ftruncate. -/
inductive InitError
  | behaviorOpen (e : OSErr)
  | channelCreation (e : OSErr)
  | channelMap (e : OSErr)
  | forkFail (e : OSErr)
deriving DecidableEq, Repr

/-- The OS actions of Init, in program order. -/
inductive InitAct
  | openBehavior
  | closeBehavior
  | createRNG
  | shm_open
  | ftruncate
  | mmap
  | memsetZero
  | fork
deriving DecidableEq, Repr

/-- What a successful Init leaves behind in the controller: the shared
memory descriptor, the freshly mapped (and zeroed) State Record, and the
pid of the behavior child. -/
structure InitOk where
  sharedMemFD : Nat
  robotState : kilobot_state_t
  behaviorPID : Int

/-- CCI_KilobotController::Init (lines 23-97), parent view, for a
configuration whose behavior attribute is present. In program order: open
the behavior file read-only and throw on failure (lines 45-48), close it,
create the RNG, shm_open and throw on failure (lines 54-59), call
ftruncate with its result unchecked (line 61), mmap and throw on failure
(lines 63-72), memset the record to zero (line 73), fork and throw on
failure (lines 75-78). The child branch of the fork replaces its image
with the behavior program and never returns into this function. Returns
the outcome together with the trace of OS actions actually performed. -/
def Init (os : InitOS) : Except InitError InitOk × List InitAct :=
  match os.openBehavior with
  | .error e => (.error (.behaviorOpen e), [InitAct.openBehavior])
  | .ok _ =>
    match os.shm_open with
    | .error e =>
      (.error (.channelCreation e),
       [InitAct.openBehavior, InitAct.closeBehavior, InitAct.createRNG, InitAct.shm_open])
    | .ok fd =>
      match os.mmap with
      | .error e =>
        (.error (.channelMap e),
         [InitAct.openBehavior, InitAct.closeBehavior, InitAct.createRNG, InitAct.shm_open,
          InitAct.ftruncate, InitAct.mmap])
      | .ok _ =>
        match os.fork with
        | .error e =>
          (.error (.forkFail e),
           [InitAct.openBehavior, InitAct.closeBehavior, InitAct.createRNG, InitAct.shm_open,
            InitAct.ftruncate, InitAct.mmap, InitAct.memsetZero, InitAct.fork])
        | .ok pid =>
          (.ok { sharedMemFD := fd, robotState := zeroState, behaviorPID := pid },
           [InitAct.openBehavior, InitAct.closeBehavior, InitAct.createRNG, InitAct.shm_open,
            InitAct.ftruncate, InitAct.mmap, InitAct.memsetZero, InitAct.fork])

/-- Linux WNOHANG option bit: waitpid returns at once instead of blocking. -/
def WNOHANG : Nat := 1

/-- glibc WIFEXITED: true exactly when the low seven bits of the status
word are zero. In C the macro yields the int 1 or 0. -/
def WIFEXITED (status : Nat) : Bool :=
  status % 128 == 0

/-- True when a waitpid call with these options blocks until the child
changes state; with the WNOHANG bit set it returns immediately. -/
def waitpidBlocks (options : Nat) : Bool :=
  options &&& WNOHANG == 0

/-- The OS actions of Destroy, in program order. -/
inductive DestroyAct
  | kill (pid : Int) (sig : Nat)
  | waitpid (pid : Int) (options : Nat)
  | munmap
  | closeFd (fd : Nat)
  | shm_unlink (name : String)
deriving DecidableEq, Repr

/-- CCI_KilobotController::Destroy (lines 157-166): kill(pid, SIGTERM),
kill(pid, SIGCONT), then waitpid(pid, &nStatus, WIFEXITED(nStatus)) —
nStatus is read before anything was ever stored in it, so the options
argument is computed from an indeterminate value, passed here as the
garbage parameter (in C the macro yields 1 or 0, hence options is WNOHANG
or 0) — then munmap the record, close the descriptor and shm_unlink the
named object. -/
def Destroy (pid : Int) (fd : Nat) (name : String) (garbage : Nat) : List DestroyAct :=
  [DestroyAct.kill pid SIGTERM, DestroyAct.kill pid SIGCONT,
   DestroyAct.waitpid pid (if WIFEXITED garbage then 1 else 0),
   DestroyAct.munmap, DestroyAct.closeFd fd, DestroyAct.shm_unlink name]

/-- Example Init environment: opening the behavior file fails with ENOENT,
every other call would succeed. -/
def osBadBehavior : InitOS where
  openBehavior := Except.error ⟨2⟩
  shm_open := Except.ok 4
  ftruncate := Except.ok ()
  mmap := Except.ok ()
  fork := Except.ok 9

/-- Example Init environment: shm_open fails with EACCES. -/
def osShmFail : InitOS where
  openBehavior := Except.ok 3
  shm_open := Except.error ⟨13⟩
  ftruncate := Except.ok ()
  mmap := Except.ok ()
  fork := Except.ok 9

/-- Example Init environment: mmap fails with ENOMEM. -/
def osMmapFail : InitOS where
  openBehavior := Except.ok 3
  shm_open := Except.ok 4
  ftruncate := Except.error ⟨28⟩
  mmap := Except.error ⟨12⟩
  fork := Except.ok 9

/-- Example Init environment: only ftruncate fails (ENOSPC); open, shm_open,
mmap and fork all succeed. -/
def osFtruncFail : InitOS where
  openBehavior := Except.ok 3
  shm_open := Except.ok 4
  ftruncate := Except.error ⟨28⟩
  mmap := Except.ok ()
  fork := Except.ok 9

/-- Example Init environment where every call succeeds. -/
def osAllOk : InitOS where
  openBehavior := Except.ok 3
  shm_open := Except.ok 4
  ftruncate := Except.ok ()
  mmap := Except.ok ()
  fork := Except.ok 9

/-- Example device set: no devices present at all. -/
def dNone : Devices where
  light := none
  commS := some { packets := [], messageSent := false }
  motors := false
  led := false
  commA := false

/-- Example device set: only a communication sensor reporting no packets
and the last message as sent. -/
def dSent : Devices where
  light := none
  commS := some { packets := [], messageSent := true }
  motors := false
  led := false
  commA := false

/-- Example device set: no communication sensor. -/
def dNoComm : Devices where
  light := some 7
  commS := none
  motors := true
  led := true
  commA := true

/-- Example record with tx_state = 1 (message ready). -/
def sTx1 : kilobot_state_t :=
  { zeroState with tx_state := 1 }

/-- Example record with tx_state = 2 (message sent). -/
def sTx2 : kilobot_state_t :=
  { zeroState with tx_state := 2 }

/-- Example record as left by an earlier tick: three received messages
still stored. -/
def sRx3 : kilobot_state_t :=
  { zeroState with rx_state := 3, rx_message := fun _ => ⟨9⟩, rx_distance := fun _ => ⟨4⟩ }

/-- Example communication reading of three packets. -/
def threePackets : CommSensorReading where
  packets := [⟨⟨1⟩, ⟨2⟩⟩, ⟨⟨3⟩, ⟨4⟩⟩, ⟨⟨5⟩, ⟨6⟩⟩]
  messageSent := false

/-- Example device set carrying the three-packet reading. -/
def dThreePackets : Devices where
  light := none
  commS := some threePackets
  motors := false
  led := false
  commA := false

/-- Example communication reading of 256 packets in one tick. -/
def manyPackets : CommSensorReading where
  packets := List.replicate 256 ⟨⟨7⟩, ⟨5⟩⟩
  messageSent := false

/-- Example device set carrying the 256-packet reading. -/
def dManyPackets : Devices where
  light := none
  commS := some manyPackets
  motors := false
  led := false
  commA := false

/-- C7: Reset overwrites every field of the State Record with zero
regardless of prior contents (Reset r is the all-zero record for every r),
Reset is idempotent, and the record a successful Init leaves behind is the
same all-zero record (Init zeroes it with memset right after mapping). -/
theorem reset_zeroes_idempotent_and_init_zeroes (s : kilobot_state_t)
    (os : InitOS) (k : InitOk) (h : (Init os).1 = Except.ok k) :
    Reset s = zeroState ∧
    Reset (Reset s) = Reset s ∧
    k.robotState = zeroState := by
  refine ⟨rfl, rfl, ?_⟩
  unfold Init at h
  repeat' split at h
  all_goals simp_all
  exact h.symm ▸ rfl

/-- Witness for C7 at a concrete prior record and a concrete successful
Init environment. -/
theorem reset_zeroes_idempotent_and_init_zeroes_witness :
    Reset sTx1 = zeroState ∧
    (⟨4, zeroState, 9⟩ : InitOk).robotState = zeroState := by
  have h := reset_zeroes_idempotent_and_init_zeroes sTx1 osAllOk ⟨4, zeroState, 9⟩ rfl
  exact ⟨h.1, h.2.2⟩

/-- C2 (code bug in the source): when the behavior child exits during the
tick instead of stopping itself, ControlStep does not surface any error:
the source calls waitpid with a NULL status pointer and discards its
return value, so the tick result is identical — state, actuator commands,
and (absent) anomaly — to the one of a child that suspended normally. -/
theorem controlStep_child_exit_not_surfaced (maxRx : Nat) (pid : Int) (d : Devices)
    (b : kilobot_state_t → kilobot_state_t) (s : kilobot_state_t) :
    (ControlStep maxRx pid d b ChildOutcome.exited s).anomaly = none ∧
    (ControlStep maxRx pid d b ChildOutcome.exited s).state
      = (ControlStep maxRx pid d b ChildOutcome.stopped s).state ∧
    (ControlStep maxRx pid d b ChildOutcome.exited s).cmds
      = (ControlStep maxRx pid d b ChildOutcome.stopped s).cmds :=
  ⟨rfl, rfl, rfl⟩

/-- C6 (code bug in the source): Destroy computes the waitpid options
argument as WIFEXITED(nStatus) where nStatus is uninitialized. When the
indeterminate value happens to have zero in its low seven bits (e.g. 0),
the macro yields 1, which is WNOHANG on Linux, so the wait does not block
until the child has exited, contrary to the claim. The remaining order of
actions (terminate, continue, wait, then unmap, close, unlink) is as
claimed. -/
theorem destroy_wait_options_are_nohang :
    Destroy 42 5 "/1234_kb0" 0
      = [DestroyAct.kill 42 SIGTERM, DestroyAct.kill 42 SIGCONT,
         DestroyAct.waitpid 42 WNOHANG,
         DestroyAct.munmap, DestroyAct.closeFd 5, DestroyAct.shm_unlink "/1234_kb0"] ∧
    waitpidBlocks WNOHANG = false :=
  ⟨rfl, rfl⟩

/-- C5: if the configured behavior program cannot be opened for reading,
Init fails with the behavior-open error (propagating errno) before any
process creation: fork does not appear in the trace of performed OS
actions. -/
theorem init_bad_behavior_no_fork (os : InitOS) (e : OSErr)
    (h : os.openBehavior = Except.error e) :
    (Init os).1 = Except.error (InitError.behaviorOpen e) ∧
    InitAct.fork ∉ (Init os).2 := by
  have h1 : Init os = (Except.error (InitError.behaviorOpen e), [InitAct.openBehavior]) := by
    unfold Init
    rw [h]
  rw [h1]
  refine ⟨rfl, ?_⟩
  show InitAct.fork ∉ [InitAct.openBehavior]
  decide

/-- Witness for C5 at a concrete environment whose behavior-file open
fails with ENOENT. -/
theorem init_bad_behavior_no_fork_witness :
    (Init osBadBehavior).1 = Except.error (InitError.behaviorOpen ⟨2⟩) ∧
    InitAct.fork ∉ (Init osBadBehavior).2 :=
  init_bad_behavior_no_fork osBadBehavior ⟨2⟩ rfl

/-- C4 (amended): Init fails with the ChannelCreationError-class failure
when the named shared-memory object cannot be created/opened, and with the
mapping failure when mmap fails, propagating the underlying OS error in
both cases; the sizing step is different: the result of ftruncate is never
examined, so the outcome of Init is entirely independent of it. -/
theorem init_channel_failure_modes (os : InitOS) (e : OSErr) (fd0 : Nat)
    (hopen : os.openBehavior = Except.ok fd0) :
    (os.shm_open = Except.error e →
      (Init os).1 = Except.error (InitError.channelCreation e)) ∧
    (∀ fd, os.shm_open = Except.ok fd → os.mmap = Except.error e →
      (Init os).1 = Except.error (InitError.channelMap e)) ∧
    Init os = Init { os with ftruncate := Except.ok () } := by
  refine ⟨?_, ?_, rfl⟩
  · intro h
    unfold Init
    rw [hopen, h]
  · intro fd h1 h2
    unfold Init
    rw [hopen, h1, h2]

/-- Witness for C4 at concrete environments where shm_open (EACCES) and
mmap (ENOMEM) fail. -/
theorem init_channel_failure_modes_witness :
    (Init osShmFail).1 = Except.error (InitError.channelCreation ⟨13⟩) ∧
    (Init osMmapFail).1 = Except.error (InitError.channelMap ⟨12⟩) :=
  ⟨(init_channel_failure_modes osShmFail ⟨13⟩ 3 rfl).1 rfl,
   (init_channel_failure_modes osMmapFail ⟨12⟩ 3 rfl).2.1 4 rfl rfl⟩

/-- Counterexample for C4 as stated: in an environment where the sizing
step (ftruncate) fails with ENOSPC while every other call succeeds, Init
succeeds — it does not fail with any ChannelCreationError-class failure,
because the source never checks the return value of ftruncate (line 61). -/
theorem init_sizing_failure_not_fatal :
    osFtruncFail.ftruncate = Except.error ⟨28⟩ ∧
    (Init osFtruncFail).1 = Except.ok ⟨4, zeroState, 9⟩ :=
  ⟨rfl, rfl⟩

/-- The simulator-side sensor writes touch only ambientlight, the rx block
and tx_state: every other field of the State Record is preserved. -/
theorem writeSensors_preserves (maxRx : Nat) (d : Devices) (t : kilobot_state_t) :
    (writeSensors maxRx d t).left_motor = t.left_motor ∧
    (writeSensors maxRx d t).right_motor = t.right_motor ∧
    (writeSensors maxRx d t).color = t.color ∧
    (writeSensors maxRx d t).tx_message = t.tx_message ∧
    (writeSensors maxRx d t).voltage = t.voltage ∧
    (writeSensors maxRx d t).temperature = t.temperature := by
  rcases d with ⟨l, c, m1, m2, m3⟩
  rcases c with _ | ⟨pkts, ms⟩
  · cases l <;> simp [writeSensors, setLight]
  · cases l <;> cases ms <;> cases pkts <;>
      simp [writeSensors, setLight, setRx, setTxSent, writeRxLoop]

/-- The simulator-side store to tx_state with a communication sensor
present: tx_state becomes 2 exactly when the sensor reports the last
message as sent, and is untouched otherwise. -/
theorem writeSensors_tx_state_some (maxRx : Nat) (d : Devices) (t : kilobot_state_t)
    (c : CommSensorReading) (hc : d.commS = some c) :
    (writeSensors maxRx d t).tx_state = if c.messageSent then 2 else t.tx_state := by
  rcases d with ⟨l, c2, m1, m2, m3⟩
  cases hc
  rcases c with ⟨pkts, ms⟩
  cases l <;> cases ms <;> cases pkts <;>
    simp [writeSensors, setLight, setRx, setTxSent, writeRxLoop]

/-- Without a communication sensor the simulator never touches tx_state. -/
theorem writeSensors_tx_state_none (maxRx : Nat) (d : Devices) (t : kilobot_state_t)
    (hc : d.commS = none) :
    (writeSensors maxRx d t).tx_state = t.tx_state := by
  rcases d with ⟨l, c2, m1, m2, m3⟩
  cases hc
  cases l <;> simp [writeSensors, setLight]

/-- C9: the simulator-side writes of ControlStep never touch the
behavior-owned output fields — left_motor, right_motor, color and
tx_message are preserved by the sensor-write phase, and after the full
ControlStep each of them is exactly the value in the record the behavior
function produced. -/
theorem controlStep_frame_behavior_fields (maxRx : Nat) (pid : Int) (d : Devices)
    (b : kilobot_state_t → kilobot_state_t) (o : ChildOutcome) (s : kilobot_state_t) :
    (writeSensors maxRx d s).left_motor = s.left_motor ∧
    (writeSensors maxRx d s).right_motor = s.right_motor ∧
    (writeSensors maxRx d s).color = s.color ∧
    (writeSensors maxRx d s).tx_message = s.tx_message ∧
    (ControlStep maxRx pid d b o s).state.left_motor
      = (b (writeSensors maxRx d s)).left_motor ∧
    (ControlStep maxRx pid d b o s).state.right_motor
      = (b (writeSensors maxRx d s)).right_motor ∧
    (ControlStep maxRx pid d b o s).state.color
      = (b (writeSensors maxRx d s)).color ∧
    (ControlStep maxRx pid d b o s).state.tx_message
      = (b (writeSensors maxRx d s)).tx_message := by
  have h := writeSensors_preserves maxRx d s
  exact ⟨h.1, h.2.1, h.2.2.1, h.2.2.2.1, rfl, rfl, rfl, rfl⟩

/-- C10: when the communication sensor is present but reports no packets
this tick, the sensor-write phase leaves rx_state, rx_message and
rx_distance untouched, so a count and contents stored in an earlier tick
stay visible to the behavior process, which is handed exactly this
record. -/
theorem rx_fields_unchanged_without_packets (maxRx : Nat) (pid : Int) (d : Devices)
    (b : kilobot_state_t → kilobot_state_t) (o : ChildOutcome)
    (s : kilobot_state_t) (c : CommSensorReading)
    (hc : d.commS = some c) (hp : c.packets = []) :
    (writeSensors maxRx d s).rx_state = s.rx_state ∧
    (writeSensors maxRx d s).rx_message = s.rx_message ∧
    (writeSensors maxRx d s).rx_distance = s.rx_distance ∧
    (ControlStep maxRx pid d b o s).state = b (writeSensors maxRx d s) := by
  rcases d with ⟨l, c2, m1, m2, m3⟩
  cases hc
  rcases c with ⟨pkts, ms⟩
  cases hp
  cases l <;> cases ms <;>
    simp [writeSensors, setLight, setRx, setTxSent, ControlStep]

/-- Witness for C10: a sensor reading with zero packets leaves the
three-message inbox of an earlier tick untouched. -/
theorem rx_fields_unchanged_without_packets_witness :
    (writeSensors 16 dNone sRx3).rx_state = sRx3.rx_state ∧
    (writeSensors 16 dNone sRx3).rx_message = sRx3.rx_message ∧
    (writeSensors 16 dNone sRx3).rx_distance = sRx3.rx_distance := by
  have h := rx_fields_unchanged_without_packets 16 1 dNone (fun t => t)
    ChildOutcome.stopped sRx3 ⟨[], false⟩ rfl rfl
  exact ⟨h.1, h.2.1, h.2.2.1⟩

/-- C8: the simulator-side synchronizer never writes the value 1 into
tx_state. Its only store writes 2, exactly when the communication sensor
reports the last message as sent; with no send report or no communication
sensor tx_state is untouched; a tx_state of 1 after the sensor writes can
only have been there before; and the tx_state after the full ControlStep
is exactly what the behavior function wrote. -/
theorem sim_never_writes_tx_ready (maxRx : Nat) (pid : Int) (d : Devices)
    (b : kilobot_state_t → kilobot_state_t) (o : ChildOutcome) (s : kilobot_state_t) :
    (∀ c, d.commS = some c → c.messageSent = true →
      (writeSensors maxRx d s).tx_state = 2) ∧
    (∀ c, d.commS = some c → c.messageSent = false →
      (writeSensors maxRx d s).tx_state = s.tx_state) ∧
    (d.commS = none → (writeSensors maxRx d s).tx_state = s.tx_state) ∧
    ((writeSensors maxRx d s).tx_state = 1 → s.tx_state = 1) ∧
    (ControlStep maxRx pid d b o s).state.tx_state
      = (b (writeSensors maxRx d s)).tx_state := by
  refine ⟨?_, ?_, ?_, ?_, rfl⟩
  · intro c hc hms
    rw [writeSensors_tx_state_some maxRx d s c hc]
    simp [hms]
  · intro c hc hms
    rw [writeSensors_tx_state_some maxRx d s c hc]
    simp [hms]
  · intro hc
    exact writeSensors_tx_state_none maxRx d s hc
  · intro h1
    rcases hE : d.commS with _ | c
    · rw [writeSensors_tx_state_none maxRx d s hE] at h1
      exact h1
    · rw [writeSensors_tx_state_some maxRx d s c hE] at h1
      by_cases hms : c.messageSent = true
      · simp [hms] at h1
      · simp [hms] at h1
        exact h1

/-- Witness for C8 at concrete device sets: sent report writes 2, no sent
report and no communication sensor leave tx_state alone, and a record
whose tx_state is 1 after the sensor writes already held 1. -/
theorem sim_never_writes_tx_ready_witness :
    (writeSensors 16 dSent sTx1).tx_state = 2 ∧
    (writeSensors 16 dNone sTx2).tx_state = sTx2.tx_state ∧
    (writeSensors 16 dNoComm sTx2).tx_state = sTx2.tx_state ∧
    sTx1.tx_state = 1 := by
  have h1 := sim_never_writes_tx_ready 16 1 dSent (fun t => t) ChildOutcome.stopped sTx1
  have h2 := sim_never_writes_tx_ready 16 1 dNone (fun t => t) ChildOutcome.stopped sTx2
  have h3 := sim_never_writes_tx_ready 16 1 dNoComm (fun t => t) ChildOutcome.stopped sTx2
  have h4 := sim_never_writes_tx_ready 16 1 dNoComm (fun t => t) ChildOutcome.stopped sTx1
  exact ⟨h1.1 ⟨[], true⟩ rfl rfl, h2.2.1 ⟨[], false⟩ rfl rfl, h3.2.2.1 rfl,
    h4.2.2.2.1 rfl⟩

/-- Without a communication sensor the simulator never touches the rx
fields. -/
theorem writeSensors_rx_nocomm (maxRx : Nat) (d : Devices) (t : kilobot_state_t)
    (hc : d.commS = none) :
    (writeSensors maxRx d t).rx_state = t.rx_state ∧
    (writeSensors maxRx d t).rx_message = t.rx_message ∧
    (writeSensors maxRx d t).rx_distance = t.rx_distance := by
  rcases d with ⟨l, c2, m1, m2, m3⟩
  cases hc
  cases l <;> simp [writeSensors, setLight]

/-- With a communication sensor reporting an empty packet list the rx
fields are untouched as well (the guard at line 108 skips the whole rx
block). -/
theorem writeSensors_rx_empty (maxRx : Nat) (d : Devices) (t : kilobot_state_t)
    (c : CommSensorReading) (hc : d.commS = some c) (hp : c.packets = []) :
    (writeSensors maxRx d t).rx_state = t.rx_state ∧
    (writeSensors maxRx d t).rx_message = t.rx_message ∧
    (writeSensors maxRx d t).rx_distance = t.rx_distance := by
  rcases d with ⟨l, c2, m1, m2, m3⟩
  cases hc
  rcases c with ⟨pkts, ms⟩
  cases hp
  cases l <;> cases ms <;>
    simp [writeSensors, setLight, setRx, setTxSent]

/-- The rx stores with a non-empty packet list: the count written is
Min<UInt8>(count, KILOBOT_MAX_RX); the cells below that count receive the
leading packets in order; every cell at or above it is untouched. -/
theorem writeSensors_rx_some (maxRx : Nat) (d : Devices) (t : kilobot_state_t)
    (c : CommSensorReading) (hc : d.commS = some c) (hp : c.packets ≠ []) :
    (writeSensors maxRx d t).rx_state = minUInt8 c.packets.length maxRx ∧
    (∀ i, i < minUInt8 c.packets.length maxRx →
      (writeSensors maxRx d t).rx_message i = (c.packets.getD i ⟨⟨0⟩, ⟨0⟩⟩).Message ∧
      (writeSensors maxRx d t).rx_distance i = (c.packets.getD i ⟨⟨0⟩, ⟨0⟩⟩).Distance) ∧
    (∀ i, ¬ i < minUInt8 c.packets.length maxRx →
      (writeSensors maxRx d t).rx_message i = t.rx_message i ∧
      (writeSensors maxRx d t).rx_distance i = t.rx_distance i) := by
  rcases d with ⟨l, c2, m1, m2, m3⟩
  cases hc
  rcases c with ⟨pkts, ms⟩
  rcases pkts with _ | ⟨p, ps⟩
  · exact absurd rfl hp
  · refine ⟨?_, ?_, ?_⟩
    · cases l <;> cases ms <;>
        simp [writeSensors, setLight, setRx, setTxSent, writeRxLoop]
    · intro i hi
      cases l <;> cases ms <;>
        simp_all [writeSensors, setLight, setRx, setTxSent, writeRxLoop]
    · intro i hi
      cases l <;> cases ms <;>
        simp_all [writeSensors, setLight, setRx, setTxSent, writeRxLoop]

/-- C3 (amended): after the simulator-side writes of any ControlStep, the
rx_state field is at most MAX_RX (assuming it was in bound before, as the
all-zero initial record is), and no cell of rx_message or rx_distance at
index MAX_RX or beyond is ever written. But the count written for a
non-empty inbox is Min<UInt8>(count, MAX_RX): both arguments are first
truncated to eight bits, so the written count is
min (count mod 256) (MAX_RX mod 256) — equal to MAX_RX whenever
MAX_RX < count < 256, but not for larger counts — and exactly that many
leading (message, distance) pairs are copied. The behavior function alone
determines rx_state after the full step. -/
theorem rx_count_bounded_and_truncated (maxRx : Nat) (pid : Int) (d : Devices)
    (b : kilobot_state_t → kilobot_state_t) (o : ChildOutcome)
    (s : kilobot_state_t) (c : CommSensorReading)
    (hs : s.rx_state ≤ maxRx) :
    (writeSensors maxRx d s).rx_state ≤ maxRx ∧
    (d.commS = some c → c.packets ≠ [] →
      (writeSensors maxRx d s).rx_state = min (c.packets.length % 256) (maxRx % 256) ∧
      (∀ i, i < min (c.packets.length % 256) (maxRx % 256) →
        (writeSensors maxRx d s).rx_message i = (c.packets.getD i ⟨⟨0⟩, ⟨0⟩⟩).Message ∧
        (writeSensors maxRx d s).rx_distance i = (c.packets.getD i ⟨⟨0⟩, ⟨0⟩⟩).Distance) ∧
      (∀ i, maxRx ≤ i →
        (writeSensors maxRx d s).rx_message i = s.rx_message i ∧
        (writeSensors maxRx d s).rx_distance i = s.rx_distance i)) ∧
    (ControlStep maxRx pid d b o s).state.rx_state
      = (b (writeSensors maxRx d s)).rx_state := by
  refine ⟨?_, ?_, rfl⟩
  · rcases hE : d.commS with _ | c2
    · rw [(writeSensors_rx_nocomm maxRx d s hE).1]
      exact hs
    · rcases hP : c2.packets with _ | ⟨p, ps⟩
      · rw [(writeSensors_rx_empty maxRx d s c2 hE hP).1]
        exact hs
      · have h2 := (writeSensors_rx_some maxRx d s c2 hE (by rw [hP]; simp)).1
        rw [h2]
        exact le_trans (Nat.min_le_right _ _) (Nat.mod_le _ _)
  · intro hc hp
    have h2 := writeSensors_rx_some maxRx d s c hc hp
    refine ⟨h2.1, h2.2.1, ?_⟩
    intro i hi
    refine h2.2.2 i ?_
    have hmin : minUInt8 c.packets.length maxRx ≤ maxRx % 256 := Nat.min_le_right _ _
    have hmod := Nat.mod_le maxRx 256
    omega

/-- Witness for C3 (amended) at MAX_RX = 2 with three received packets:
the written count is min 3 2 = 2, cell 0 receives the first packet, and
cell 5 (beyond MAX_RX) keeps its prior zero value. -/
theorem rx_count_bounded_and_truncated_witness :
    (writeSensors 2 dThreePackets zeroState).rx_state ≤ 2 ∧
    (writeSensors 2 dThreePackets zeroState).rx_state = min (3 % 256) (2 % 256) ∧
    (writeSensors 2 dThreePackets zeroState).rx_message 0 = ⟨1⟩ ∧
    (writeSensors 2 dThreePackets zeroState).rx_message 5 = ⟨0⟩ := by
  have h := rx_count_bounded_and_truncated 2 1 dThreePackets (fun t => t)
    ChildOutcome.stopped zeroState threePackets (by decide)
  have h2 := h.2.1 rfl (by decide)
  refine ⟨h.1, h2.1, ?_, ?_⟩
  · have h3 := (h2.2.1 0 (by decide)).1
    simpa [threePackets] using h3
  · have h3 := (h2.2.2 5 (by decide)).1
    simpa [zeroState] using h3

/-- Every event the sensor-write phase contributes to the trace is a State
Record store. -/
theorem preEvs_all_writes (d : Devices) : (preEvs d).all isWriteField = true := by
  rcases d with ⟨l, c, m1, m2, m3⟩
  rcases c with _ | ⟨pkts, ms⟩
  · cases l <;> rfl
  · cases l <;> cases ms <;> cases pkts <;> rfl

/-- Every event the actuator-read phase contributes to the trace is a
State Record read. -/
theorem postEvs_all_reads (d : Devices) (t : kilobot_state_t) :
    (postEvs d t).all isReadField = true := by
  rcases d with ⟨l, c, m1, m2, m3⟩
  by_cases ht : t.tx_state = 1 <;>
    cases m1 <;> cases m2 <;> cases m3 <;>
      simp [postEvs, ht, isReadField]

/-- A list of store events contains no resume signal and no wait. -/
theorem writes_have_no_sync_evs (pid : Int) (l : List Ev)
    (h : l.all isWriteField = true) :
    l.filter (isResume pid) = [] ∧ l.filter (isWait pid) = [] := by
  constructor <;>
  · rw [List.filter_eq_nil_iff]
    intro a ha
    have hw := List.all_eq_true.mp h a ha
    cases a <;> simp_all [isWriteField, isResume, isWait]

/-- A list of read events contains no resume signal and no wait. -/
theorem reads_have_no_sync_evs (pid : Int) (l : List Ev)
    (h : l.all isReadField = true) :
    l.filter (isResume pid) = [] ∧ l.filter (isWait pid) = [] := by
  constructor <;>
  · rw [List.filter_eq_nil_iff]
    intro a ha
    have hw := List.all_eq_true.mp h a ha
    cases a <;> simp_all [isReadField, isResume, isWait]

/-- The trace of one ControlStep holds exactly one resume signal and
exactly one wait, whoever the devices and the behavior are. -/
theorem controlStep_trace_filters (maxRx : Nat) (pid : Int) (d : Devices)
    (b : kilobot_state_t → kilobot_state_t) (o : ChildOutcome) (s : kilobot_state_t) :
    (ControlStep maxRx pid d b o s).trace.filter (isResume pid) = [Ev.kill pid SIGCONT] ∧
    (ControlStep maxRx pid d b o s).trace.filter (isWait pid) = [Ev.waitFor pid o] := by
  have hpre := writes_have_no_sync_evs pid (preEvs d) (preEvs_all_writes d)
  have hpost := reads_have_no_sync_evs pid (postEvs d (b (writeSensors maxRx d s)))
    (postEvs_all_reads d (b (writeSensors maxRx d s)))
  constructor <;>
    simp [ControlStep, List.filter_append, hpre.1, hpre.2, hpost.1, hpost.2,
      isResume, isWait]

/-- Over N consecutive ControlStep calls the trace holds exactly N resume
signals and exactly N waits. -/
theorem controlStepN_counts (maxRx : Nat) (pid : Int) (ds : Nat → Devices)
    (behs : Nat → kilobot_state_t → kilobot_state_t) (outs : Nat → ChildOutcome)
    (N : Nat) (s : kilobot_state_t) :
    ((ControlStepN maxRx pid ds behs outs N s).2.filter (isResume pid)).length = N ∧
    ((ControlStepN maxRx pid ds behs outs N s).2.filter (isWait pid)).length = N := by
  induction N generalizing ds behs outs s with
  | zero => exact ⟨rfl, rfl⟩
  | succ n ih =>
    have hstep := controlStep_trace_filters maxRx pid (ds 0) (behs 0) (outs 0) s
    have hrest := ih (fun k => ds (k + 1)) (fun k => behs (k + 1)) (fun k => outs (k + 1))
      (ControlStep maxRx pid (ds 0) (behs 0) (outs 0) s).state
    constructor <;>
      simp [ControlStepN, List.filter_append, hstep.1, hstep.2, hrest.1, hrest.2,
        Nat.add_comm]

/-- C1: over any sequence of N ControlStep calls exactly N resume
(SIGCONT) signals are sent to the behavior child process and exactly N
blocking waits occur — one per call; and the trace of every single call
is: State Record sensor stores only, then the one resume signal
immediately followed by the one blocking wait, then State Record actuator
reads only — the wait is the single suspension point and sits between the
sensor writes and the actuator reads. -/
theorem controlStep_resume_wait_discipline (maxRx : Nat) (pid : Int)
    (ds : Nat → Devices) (behs : Nat → kilobot_state_t → kilobot_state_t)
    (outs : Nat → ChildOutcome) (N : Nat) (s : kilobot_state_t)
    (d : Devices) (b : kilobot_state_t → kilobot_state_t) (o : ChildOutcome)
    (s0 : kilobot_state_t) :
    ((ControlStepN maxRx pid ds behs outs N s).2.filter (isResume pid)).length = N ∧
    ((ControlStepN maxRx pid ds behs outs N s).2.filter (isWait pid)).length = N ∧
    (ControlStep maxRx pid d b o s0).trace
      = preEvs d ++ [Ev.kill pid SIGCONT, Ev.waitFor pid o]
        ++ postEvs d (b (writeSensors maxRx d s0)) ∧
    (preEvs d).all isWriteField = true ∧
    (postEvs d (b (writeSensors maxRx d s0))).all isReadField = true ∧
    (ControlStep maxRx pid d b o s0).trace.filter (isWait pid) = [Ev.waitFor pid o] :=
  ⟨(controlStepN_counts maxRx pid ds behs outs N s).1,
   (controlStepN_counts maxRx pid ds behs outs N s).2,
   rfl,
   preEvs_all_writes d,
   postEvs_all_reads d (b (writeSensors maxRx d s0)),
   (controlStep_trace_filters maxRx pid d b o s0).2⟩

set_option maxRecDepth 20000 in
/-- Counterexample for C3 as stated: 256 packets received in one tick with
MAX_RX = 16. The source computes Min<UInt8>(256, 16); the size argument is
first truncated to the UInt8 value 0, so ControlStep writes rx_state = 0 —
not MAX_RX = 16 — and copies no pair at all: cell 0 keeps its prior zero
value instead of receiving the first packet payload 7. -/
theorem rx_overflow_writes_zero_not_max :
    manyPackets.packets.length = 256 ∧
    (ControlStep 16 1 dManyPackets (fun t => t) ChildOutcome.stopped
      zeroState).state.rx_state = 0 ∧
    ¬ (ControlStep 16 1 dManyPackets (fun t => t) ChildOutcome.stopped
      zeroState).state.rx_state = 16 ∧
    (ControlStep 16 1 dManyPackets (fun t => t) ChildOutcome.stopped
      zeroState).state.rx_message 0 = ⟨0⟩ := by
  decide

end Kilobot
